import Mathlib

/-!
Shallow embedding of `modules/planning/common/frame.cc` (Apollo planning Frame):
the per-cycle planning context. Doubles carrying times and positions are
modelled as exact rationals; pose coordinates, which the code tests with
`std::isnan`, are modelled by a type with an explicit NaN value. External
collaborators (the PncMap path query, the reference-line smoother, and
`ReferenceLineInfo::AddObstacles`) are parameters of the embedded functions,
since their code lives outside this file of the repository.
-/

namespace Apollo

/-- A double as used for pose coordinates: either NaN or an exact value. -/
inductive Double where
  | nan : Double
  | val : ℚ → Double
deriving DecidableEq, Repr

/-- Embeds `std::isnan` on a pose coordinate. -/
def Double.isnan : Double → Bool
  | .nan => true
  | .val _ => false

structure PointENU where
  x : Double
  y : Double
deriving DecidableEq, Repr

/-- `localization::Pose`: the fields `Frame::Init` reads (its `position()`). -/
structure Pose where
  position : PointENU
deriving DecidableEq, Repr

/-- `routing::RoutingResponse`: opaque to frame.cc beyond being passed to the map. -/
structure RoutingResponse where
  road_segment : List ℕ
deriving DecidableEq, Repr

/-- `common::TrajectoryPoint` as read and written by `Frame::AlignPredictionTime`:
`relative_time` plus the untouched remaining fields (position). -/
structure TrajectoryPoint where
  x : ℚ
  y : ℚ
  relative_time : ℚ
deriving DecidableEq, Repr

structure Trajectory where
  trajectory_point : List TrajectoryPoint
deriving DecidableEq, Repr

structure PredictionObstacle where
  id : String
  trajectory : List Trajectory
deriving DecidableEq, Repr

/-- `prediction::PredictionObstacles`: header timestamp plus per-obstacle trajectories. -/
structure PredictionObstacles where
  timestamp_sec : ℚ
  prediction_obstacle : List PredictionObstacle
deriving DecidableEq, Repr

/-- Modelled from the spec: `Obstacle` (its class is not under src) carries a
stable identity and one predicted trajectory or none (spec section 3). -/
structure Obstacle where
  id : String
  trajectory : Option Trajectory
deriving DecidableEq, Repr

structure HdmapPath where
  path_point : List (ℚ × ℚ)
deriving DecidableEq, Repr

structure ReferenceLine where
  reference_point : List (ℚ × ℚ)
deriving DecidableEq, Repr

instance : Inhabited ReferenceLine := ⟨⟨[]⟩⟩

/-- `ReferenceLine(hdmap_path)`: the raw reference line built from a map path. -/
def ReferenceLine.ofPath (p : HdmapPath) : ReferenceLine := ⟨p.path_point⟩

/-- The decision-state container held by a `ReferenceLineInfo`, initially empty. -/
structure PathDecision where
  object_decision : List String
deriving DecidableEq, Repr

structure ReferenceLineInfo where
  reference_line : ReferenceLine
  path_decision : PathDecision
deriving DecidableEq, Repr

instance : Inhabited ReferenceLineInfo := ⟨⟨default, ⟨[]⟩⟩⟩

/-- Modelled from the spec: `IndexedList::Add` (the keyed registry is declared
out of scope and its code is not under src). Per spec sections 4.1 and 4.2 an
insertion under an already present key is rejected, keeping the existing
entry; entries are insertion-ordered. -/
def IndexedList.Add (l : List (String × Obstacle)) (id : String) (ob : Obstacle) :
    List (String × Obstacle) :=
  if l.any (fun kv => kv.1 = id) then l else l ++ [(id, ob)]

/-- Modelled from the spec: `Obstacle::CreateObstacles` is not under src; spec
section 6 gives `obstacles_from_predictions(prediction_set) -> Obstacle[]`, one
obstacle per prediction entry carrying its identity and its trajectory or none. -/
def Obstacle.CreateObstacles (prediction : PredictionObstacles) : List Obstacle :=
  prediction.prediction_obstacle.map (fun po => ⟨po.id, po.trajectory.head?⟩)

/-- The map collaborator: `pnc_map_->CreatePathFromRouting` (code outside src);
`none` is the failure return. The look-forward and look-backward flag arguments
are fixed configuration and folded into the collaborator. -/
structure PncMap where
  CreatePathFromRouting : RoutingResponse → PointENU → Option HdmapPath

/-- The smoothing collaborator: `ReferenceLineSmoother::smooth` (code outside
src); takes the raw line and returns the smoothed line, `none` on failure. -/
structure ReferenceLineSmoother where
  smooth : ReferenceLine → Option ReferenceLine

/-- The attachment collaborator: `ReferenceLineInfo::AddObstacles` (code
outside src); reports whether attaching the registry items to a candidate
succeeded. -/
abbrev AddObstaclesFn := ReferenceLine → List (String × Obstacle) → Bool

/-- The `Frame` state: the fields of frame.cc that its member functions touch.
`obstacles` is the obstacle registry `obstacles_` as its insertion-ordered
item list; `path_decision` is the pointer `path_decision_` into the first
candidate's decision container. -/
structure Frame where
  sequence_num : ℕ
  init_pose : Pose
  routing_response : RoutingResponse
  prediction : PredictionObstacles
  reference_line_info : List ReferenceLineInfo
  obstacles : List (String × Obstacle)
  reference_line : ReferenceLine
  path_decision : Option PathDecision
deriving DecidableEq, Repr

def Frame.SetVehicleInitPose (f : Frame) (pose : Pose) : Frame :=
  { f with init_pose := pose }

def Frame.SetRoutingResponse (f : Frame) (routing : RoutingResponse) : Frame :=
  { f with routing_response := routing }

def Frame.SetPrediction (f : Frame) (prediction : PredictionObstacles) : Frame :=
  { f with prediction := prediction }

/-- `Frame::CreatePredictionObstacles`: builds obstacles from the prediction
input and adds each to the registry, keyed by its id. The function is `void`
in the source: it returns only the updated registry, with no failure channel. -/
def Frame.CreatePredictionObstacles (obstacles : List (String × Obstacle))
    (prediction : PredictionObstacles) : List (String × Obstacle) :=
  (Obstacle.CreateObstacles prediction).foldl
    (fun acc ptr => IndexedList.Add acc ptr.id ptr) obstacles

/-- `Frame::InitReferenceLineInfo`: clears the info list, emplaces one info per
reference line, then attaches the registry items to each; returns `false` when
any attachment fails. The emplaced infos stay in the member either way, so the
list is returned together with the success flag. -/
def Frame.InitReferenceLineInfo (AddObstacles : AddObstaclesFn)
    (obstacles : List (String × Obstacle))
    (reference_lines : List ReferenceLine) : Bool × List ReferenceLineInfo :=
  let infos := reference_lines.map (fun rl => ReferenceLineInfo.mk rl ⟨[]⟩)
  (infos.all (fun info => AddObstacles info.reference_line obstacles), infos)

/-- `Frame::CreateReferenceLineFromRouting`: asks the map for a path, pushes a
default-constructed `ReferenceLine` onto the output vector, and smooths the raw
line into that slot. On smoothing failure the pushed default entry stays in
the vector, as in the source. -/
def Frame.CreateReferenceLineFromRouting (pnc_map : PncMap)
    (smoother : ReferenceLineSmoother) (position : PointENU)
    (routing : RoutingResponse) (reference_lines : List ReferenceLine) :
    Bool × List ReferenceLine :=
  match pnc_map.CreatePathFromRouting routing position with
  | none => (false, reference_lines)
  | some hdmap_path =>
    match smoother.smooth (ReferenceLine.ofPath hdmap_path) with
    | none => (false, reference_lines ++ [(default : ReferenceLine)])
    | some smoothed => (true, reference_lines ++ [smoothed])

/-- `Frame::Init`: the per-cycle initialization. `pnc_map` is the process-wide
static map (`none` when `SetMap` was never called), `enable_prediction` is
`FLAGS_enable_prediction`. Returns the success flag and the updated frame.
The boolean result of `InitReferenceLineInfo` is discarded, as in the source. -/
def Frame.Init (pnc_map : Option PncMap) (smoother : ReferenceLineSmoother)
    (AddObstacles : AddObstaclesFn) (enable_prediction : Bool) (f : Frame) :
    Bool × Frame :=
  match pnc_map with
  | none => (false, f)
  | some m =>
    let point := f.init_pose.position
    if point.x.isnan || point.y.isnan then (false, f)
    else
      match Frame.CreateReferenceLineFromRouting m smoother point
          f.routing_response [] with
      | (false, _) => (false, f)
      | (true, reference_lines) =>
        let obstacles :=
          if enable_prediction then
            Frame.CreatePredictionObstacles f.obstacles f.prediction
          else f.obstacles
        let infos :=
          (Frame.InitReferenceLineInfo AddObstacles obstacles reference_lines).2
        (true, { f with
                  obstacles := obstacles,
                  reference_line_info := infos,
                  reference_line := reference_lines.headI,
                  path_decision :=
                    (infos.head?).map ReferenceLineInfo.path_decision })

/-- Rewrites one trajectory point's relative time, as the loop body of
`Frame::AlignPredictionTime` does with `T = prediction_header_time` and
`H = trajectory_header_time`. -/
def alignPoint (T H : ℚ) (point : TrajectoryPoint) : TrajectoryPoint :=
  { point with relative_time := T + point.relative_time - H }

/-- `Frame::AlignPredictionTime`: rewrites every trajectory point of every
trajectory of every obstacle of the frame's prediction input in place. -/
def Frame.AlignPredictionTime (f : Frame) (trajectory_header_time : ℚ) : Frame :=
  let T := f.prediction.timestamp_sec
  let alignTraj := fun (trajectory : Trajectory) =>
    { trajectory with trajectory_point :=
        trajectory.trajectory_point.map (alignPoint T trajectory_header_time) }
  let alignObstacle := fun (obstacle : PredictionObstacle) =>
    { obstacle with trajectory := obstacle.trajectory.map alignTraj }
  { f with prediction :=
      { f.prediction with prediction_obstacle :=
          f.prediction.prediction_obstacle.map alignObstacle } }

/-- Looks up trajectory `j` of obstacle `i` in a prediction set. -/
def predTraj (p : PredictionObstacles) (i j : ℕ) : Option Trajectory :=
  match p.prediction_obstacle[i]? with
  | none => none
  | some ob => ob.trajectory[j]?

/-- Looks up point `k` of trajectory `j` of obstacle `i` in a prediction set. -/
def predPoint (p : PredictionObstacles) (i j k : ℕ) : Option TrajectoryPoint :=
  match predTraj p i j with
  | none => none
  | some tr => tr.trajectory_point[k]?

/-- A concrete frame for witnesses: header time 100, one obstacle `99` with a
single trajectory point at relative time one half. -/
def frameW : Frame :=
  { sequence_num := 0, init_pose := ⟨⟨.val 10, .val 5⟩⟩, routing_response := ⟨[]⟩,
    prediction := ⟨100, [⟨"99", [⟨[⟨1, 2, (1 : ℚ)/2⟩]⟩]⟩]⟩,
    reference_line_info := [], obstacles := [], reference_line := ⟨[]⟩,
    path_decision := none }

/-- A one-point prediction set whose header time is 0, matching the rebasing
header time used in the C7 counterexample. -/
def frameC7 : Frame :=
  { sequence_num := 0, init_pose := ⟨⟨.val 0, .val 0⟩⟩, routing_response := ⟨[]⟩,
    prediction := ⟨0, [⟨"1", [⟨[⟨3, 4, 7⟩]⟩]⟩]⟩, reference_line_info := [],
    obstacles := [], reference_line := ⟨[]⟩, path_decision := none }

/-- A map collaborator that always produces a one-point path. -/
def m0 : PncMap := ⟨fun _ _ => some ⟨[(0, 0)]⟩⟩

/-- A smoothing collaborator that succeeds, returning its input line. -/
def sm0 : ReferenceLineSmoother := ⟨fun rl => some rl⟩

/-- A smoothing collaborator that always fails. -/
def smFail : ReferenceLineSmoother := ⟨fun _ => none⟩

/-- An attachment collaborator that always succeeds. -/
def attachOk : AddObstaclesFn := fun _ _ => true

/-- An attachment collaborator that always fails. -/
def attachFail : AddObstaclesFn := fun _ _ => false

/-- A concrete predicted trajectory used in registry fixtures. -/
def obTraj : Trajectory := ⟨[⟨1, 2, 0⟩]⟩

/-- A prediction set containing two obstacles with the same identity `1`. -/
def predDup : PredictionObstacles := ⟨100, [⟨"1", [obTraj]⟩, ⟨"1", []⟩]⟩

/-- A prediction set containing only obstacle `1`. -/
def predA : PredictionObstacles := ⟨100, [⟨"1", []⟩]⟩

/-- A prediction set containing only obstacle `2`. -/
def predB : PredictionObstacles := ⟨200, [⟨"2", []⟩]⟩

/-- A fresh frame whose prediction input is `predA` and whose registry and
candidate list are empty. -/
def frameC8 : Frame :=
  { sequence_num := 3, init_pose := ⟨⟨.val 10, .val 5⟩⟩, routing_response := ⟨[]⟩,
    prediction := predA, reference_line_info := [], obstacles := [],
    reference_line := ⟨[]⟩, path_decision := none }

/-- A frame whose pose has a NaN x coordinate. -/
def frameNaN : Frame :=
  { frameW with init_pose := ⟨⟨.nan, .val 5⟩⟩ }

theorem predTraj_alignPredictionTime (f : Frame) (H : ℚ) (i j : ℕ) :
    predTraj (f.AlignPredictionTime H).prediction i j =
      (predTraj f.prediction i j).map (fun tr =>
        { tr with trajectory_point :=
            tr.trajectory_point.map (alignPoint f.prediction.timestamp_sec H) }) := by
  unfold predTraj Frame.AlignPredictionTime
  simp only [List.getElem?_map]
  cases f.prediction.prediction_obstacle[i]? with
  | none => rfl
  | some ob => simp [List.getElem?_map]

theorem predPoint_alignPredictionTime (f : Frame) (H : ℚ) (i j k : ℕ) :
    predPoint (f.AlignPredictionTime H).prediction i j k =
      (predPoint f.prediction i j k).map (alignPoint f.prediction.timestamp_sec H) := by
  unfold predPoint
  rw [predTraj_alignPredictionTime]
  cases predTraj f.prediction i j with
  | none => rfl
  | some tr => simp [List.getElem?_map]

/-- C2: after one call of `AlignPredictionTime` with trajectory header time H,
every trajectory point of every trajectory of every obstacle in the frame's
prediction set has relative time equal to the prediction set's header
timestamp plus its original relative time minus H. -/
theorem alignPredictionTime_rebases_every_point (f : Frame) (H : ℚ) (i j k : ℕ)
    (p : TrajectoryPoint) (hp : predPoint f.prediction i j k = some p) :
    ∃ q, predPoint (f.AlignPredictionTime H).prediction i j k = some q ∧
      q.relative_time = f.prediction.timestamp_sec + p.relative_time - H := by
  refine ⟨alignPoint f.prediction.timestamp_sec H p, ?_, rfl⟩
  rw [predPoint_alignPredictionTime, hp]
  rfl

theorem alignPredictionTime_rebases_every_point_witness :
    predPoint frameW.prediction 0 0 0 = some ⟨1, 2, (1 : ℚ)/2⟩ ∧
    ∃ q, predPoint (frameW.AlignPredictionTime 101).prediction 0 0 0 = some q ∧
      q.relative_time = frameW.prediction.timestamp_sec + ((⟨1, 2, (1 : ℚ)/2⟩ :
        TrajectoryPoint)).relative_time - 101 :=
  ⟨rfl,
   alignPredictionTime_rebases_every_point frameW 101 0 0 0 ⟨1, 2, (1 : ℚ)/2⟩ rfl⟩

/-- C7 counterexample: with prediction header time 0 and H = 0 the rebase is
the identity, so the second application of `AlignPredictionTime` changes no
point: the unique point's relative time is 7 after the first call and still 7
after the second, refuting the claim at this input. -/
theorem alignPredictionTime_second_application_can_change_nothing :
    (predPoint ((frameC7.AlignPredictionTime 0).AlignPredictionTime 0).prediction
        0 0 0).map TrajectoryPoint.relative_time = some 7 ∧
    (predPoint (frameC7.AlignPredictionTime 0).prediction 0 0 0).map
        TrajectoryPoint.relative_time = some 7 := by
  constructor <;>
    norm_num [predPoint, predTraj, frameC7, Frame.AlignPredictionTime, alignPoint]

/-- C7 amended: whenever the prediction header time differs from H, applying
`AlignPredictionTime` a second time with the same H changes every point's
relative time again relative to its value after the first application. -/
theorem alignPredictionTime_not_idempotent (f : Frame) (H : ℚ)
    (hne : f.prediction.timestamp_sec ≠ H) (i j k : ℕ) (p : TrajectoryPoint)
    (hp : predPoint (f.AlignPredictionTime H).prediction i j k = some p) :
    ∃ q, predPoint ((f.AlignPredictionTime H).AlignPredictionTime H).prediction
        i j k = some q ∧ q.relative_time ≠ p.relative_time := by
  refine ⟨alignPoint (f.AlignPredictionTime H).prediction.timestamp_sec H p, ?_, ?_⟩
  · rw [predPoint_alignPredictionTime, hp]
    rfl
  · show (f.AlignPredictionTime H).prediction.timestamp_sec + p.relative_time - H ≠
      p.relative_time
    have hT : (f.AlignPredictionTime H).prediction.timestamp_sec =
        f.prediction.timestamp_sec := rfl
    rw [hT]
    intro hc
    apply hne
    linarith

theorem alignPredictionTime_not_idempotent_witness :
    frameW.prediction.timestamp_sec ≠ (101 : ℚ) ∧
    predPoint (frameW.AlignPredictionTime 101).prediction 0 0 0 =
      some ⟨1, 2, 100 + (1 : ℚ)/2 - 101⟩ ∧
    ∃ q, predPoint ((frameW.AlignPredictionTime 101).AlignPredictionTime
        101).prediction 0 0 0 = some q ∧
      q.relative_time ≠ ((⟨1, 2, 100 + (1 : ℚ)/2 - 101⟩ :
        TrajectoryPoint)).relative_time :=
  ⟨by norm_num [frameW], rfl,
   alignPredictionTime_not_idempotent frameW 101 (by norm_num [frameW]) 0 0 0
     ⟨1, 2, 100 + (1 : ℚ)/2 - 101⟩ rfl⟩

/-- C10: `AlignPredictionTime` modifies only relative times: the header
timestamp, the number of obstacles, each obstacle's id and trajectory count,
each trajectory's point count, and each point's position are unchanged. -/
theorem alignPredictionTime_modifies_only_relative_time (f : Frame) (H : ℚ) :
    (f.AlignPredictionTime H).prediction.timestamp_sec =
        f.prediction.timestamp_sec ∧
    (f.AlignPredictionTime H).prediction.prediction_obstacle.length =
        f.prediction.prediction_obstacle.length ∧
    (∀ i : ℕ, ((f.AlignPredictionTime H).prediction.prediction_obstacle[i]?).map
        PredictionObstacle.id =
      (f.prediction.prediction_obstacle[i]?).map PredictionObstacle.id) ∧
    (∀ i : ℕ, ((f.AlignPredictionTime H).prediction.prediction_obstacle[i]?).map
        (fun ob : PredictionObstacle => ob.trajectory.length) =
      (f.prediction.prediction_obstacle[i]?).map
        (fun ob : PredictionObstacle => ob.trajectory.length)) ∧
    (∀ i j : ℕ, (predTraj (f.AlignPredictionTime H).prediction i j).map
        (fun tr : Trajectory => tr.trajectory_point.length) =
      (predTraj f.prediction i j).map
        (fun tr : Trajectory => tr.trajectory_point.length)) ∧
    (∀ i j k : ℕ, (predPoint (f.AlignPredictionTime H).prediction i j k).map
        (fun p : TrajectoryPoint => (p.x, p.y)) =
      (predPoint f.prediction i j k).map
        (fun p : TrajectoryPoint => (p.x, p.y))) := by
  refine ⟨rfl, ?_, ?_, ?_, ?_, ?_⟩
  · simp [Frame.AlignPredictionTime]
  · intro i
    simp only [Frame.AlignPredictionTime, List.getElem?_map]
    cases f.prediction.prediction_obstacle[i]? <;> rfl
  · intro i
    simp only [Frame.AlignPredictionTime, List.getElem?_map]
    cases f.prediction.prediction_obstacle[i]? <;> simp
  · intro i j
    rw [predTraj_alignPredictionTime]
    cases predTraj f.prediction i j <;> simp
  · intro i j k
    rw [predPoint_alignPredictionTime]
    cases predPoint f.prediction i j k <;> rfl

/-- C4: when the process-wide map is unset, `Init` fails and leaves the frame
unchanged: in particular no reference lines are produced and the frame's
reference-line candidate list stays as it was (empty on a fresh frame). -/
theorem init_fails_without_map (sm : ReferenceLineSmoother)
    (att : AddObstaclesFn) (ep : Bool) (f : Frame) :
    Frame.Init none sm att ep f = (false, f) := rfl

/-- C5: for a pose with a NaN coordinate, `Init` fails and leaves the frame
unchanged, and the result is the same for every map collaborator: the failure
does not depend on the map, which is therefore never consulted. -/
theorem init_fails_on_nan_pose (m : PncMap) (sm : ReferenceLineSmoother)
    (att : AddObstaclesFn) (ep : Bool) (f : Frame)
    (h : f.init_pose.position.x.isnan = true ∨
      f.init_pose.position.y.isnan = true) :
    Frame.Init (some m) sm att ep f = (false, f) := by
  unfold Frame.Init
  rcases h with h | h <;> simp [h]

theorem init_fails_on_nan_pose_witness :
    (frameNaN.init_pose.position.x.isnan = true ∨
      frameNaN.init_pose.position.y.isnan = true) ∧
    Frame.Init (some m0) sm0 attachOk true frameNaN = (false, frameNaN) :=
  ⟨Or.inl rfl, init_fails_on_nan_pose m0 sm0 attachOk true frameNaN (Or.inl rfl)⟩

/-- C3: when the map is set, the pose coordinates are finite, and the map and
smoothing collaborators succeed, `Init` returns success, the candidate list is
non-empty afterward, and the frame's primary reference line equals the first
candidate's reference line. -/
theorem init_success_first_candidate (m : PncMap) (sm : ReferenceLineSmoother)
    (att : AddObstaclesFn) (ep : Bool) (f : Frame) (p : HdmapPath)
    (r : ReferenceLine)
    (hx : f.init_pose.position.x.isnan = false)
    (hy : f.init_pose.position.y.isnan = false)
    (hmap : m.CreatePathFromRouting f.routing_response f.init_pose.position =
      some p)
    (hsm : sm.smooth (ReferenceLine.ofPath p) = some r) :
    (Frame.Init (some m) sm att ep f).1 = true ∧
    (Frame.Init (some m) sm att ep f).2.reference_line_info ≠ [] ∧
    ((Frame.Init (some m) sm att ep f).2.reference_line_info.headI).reference_line
      = (Frame.Init (some m) sm att ep f).2.reference_line := by
  have hcr : Frame.CreateReferenceLineFromRouting m sm f.init_pose.position
      f.routing_response [] = (true, [r]) := by
    unfold Frame.CreateReferenceLineFromRouting
    simp [hmap, hsm]
  unfold Frame.Init
  simp [hx, hy, hcr, Frame.InitReferenceLineInfo]

theorem init_success_first_candidate_witness :
    frameW.init_pose.position.x.isnan = false ∧
    frameW.init_pose.position.y.isnan = false ∧
    m0.CreatePathFromRouting frameW.routing_response frameW.init_pose.position =
      some ⟨[(0, 0)]⟩ ∧
    sm0.smooth (ReferenceLine.ofPath ⟨[(0, 0)]⟩) =
      some (ReferenceLine.ofPath ⟨[(0, 0)]⟩) ∧
    (Frame.Init (some m0) sm0 attachOk true frameW).1 = true ∧
    (Frame.Init (some m0) sm0 attachOk true frameW).2.reference_line_info ≠ [] ∧
    ((Frame.Init (some m0) sm0 attachOk true
        frameW).2.reference_line_info.headI).reference_line =
      (Frame.Init (some m0) sm0 attachOk true frameW).2.reference_line :=
  ⟨rfl, rfl, rfl, rfl,
   init_success_first_candidate m0 sm0 attachOk true frameW ⟨[(0, 0)]⟩
     (ReferenceLine.ofPath ⟨[(0, 0)]⟩) rfl rfl rfl rfl⟩

/-- C1: the source drops the attachment failure: with collaborators for which
the map and smoothing succeed but every attachment fails,
`InitReferenceLineInfo` reports failure, yet `Init` on the same inputs still
returns success for the cycle. -/
theorem init_ignores_attachment_failure :
    (Frame.InitReferenceLineInfo attachFail frameW.obstacles
        [ReferenceLine.ofPath ⟨[(0, 0)]⟩]).1 = false ∧
    (Frame.Init (some m0) sm0 attachFail true frameW).1 = true :=
  ⟨rfl, rfl⟩

/-- C6 counterexample: building the registry from a prediction set holding two
obstacles of identity `1` does not fail: `CreatePredictionObstacles` has no
failure channel and completes, keeping the first occurrence and silently
dropping the duplicate. -/
theorem createPredictionObstacles_accepts_duplicate :
    Frame.CreatePredictionObstacles [] predDup = [("1", ⟨"1", some obTraj⟩)] :=
  rfl

/-- C6 amended: a prediction set whose two entries carry the same identity
builds without error: the registry keeps the obstacle of the first occurrence
and the duplicate insertion leaves the registry unchanged (a silent drop, not
an overwrite and not a failure). -/
theorem createPredictionObstacles_duplicate_keeps_first (ts : ℚ)
    (a b : PredictionObstacle) (hid : b.id = a.id) :
    Frame.CreatePredictionObstacles [] ⟨ts, [a, b]⟩ =
      [(a.id, ⟨a.id, a.trajectory.head?⟩)] := by
  unfold Frame.CreatePredictionObstacles Obstacle.CreateObstacles
  simp [IndexedList.Add, hid]

theorem createPredictionObstacles_duplicate_keeps_first_witness :
    (("1" : String) = "1") ∧
    Frame.CreatePredictionObstacles []
        ⟨100, [⟨"1", [obTraj]⟩, ⟨"1", []⟩]⟩ = [("1", ⟨"1", some obTraj⟩)] :=
  ⟨rfl,
   createPredictionObstacles_duplicate_keeps_first 100 ⟨"1", [obTraj]⟩
     ⟨"1", []⟩ rfl⟩

theorem foldl_add_extends (obs : List Obstacle)
    (acc : List (String × Obstacle)) :
    ∃ t, obs.foldl (fun acc2 ptr => IndexedList.Add acc2 ptr.id ptr) acc =
      acc ++ t := by
  induction obs generalizing acc with
  | nil => exact ⟨[], (List.append_nil acc).symm⟩
  | cons a obs ih =>
    rcases ih (IndexedList.Add acc a.id a) with ⟨t, ht⟩
    simp only [List.foldl_cons]
    by_cases h : (acc.any fun kv => kv.1 = a.id) = true
    · exact ⟨t, by rw [ht]; unfold IndexedList.Add; rw [if_pos h]⟩
    · refine ⟨(a.id, a) :: t, ?_⟩
      rw [ht]
      unfold IndexedList.Add
      rw [if_neg h]
      simp

/-- C8 counterexample: running `Init` with prediction input `predA` (only
obstacle `1`), then `SetPrediction` to `predB` (only obstacle `2`), then
`Init` again, leaves obstacle `1` from the first call in the registry next to
obstacle `2`: the earlier cycle's entry survives the later `Init`. -/
theorem init_obstacle_registry_survives_reinit :
    ((Frame.Init (some m0) sm0 attachOk true
        ((Frame.Init (some m0) sm0 attachOk true
          frameC8).2.SetPrediction predB)).2.obstacles).map Prod.fst =
      ["1", "2"] := rfl

/-- C8 amended: `Init` rebuilds the reference-line candidate list from scratch
(on success the resulting list does not depend on the list held before the
call), but it does not rebuild the obstacle registry: every registry entry
present before the call survives it, the current cycle's obstacles being
appended after them. -/
theorem init_rebuilds_candidates_but_not_registry (pnc : Option PncMap)
    (sm : ReferenceLineSmoother) (att : AddObstaclesFn) (ep : Bool) (f : Frame)
    (l : List ReferenceLineInfo) :
    (∃ t, (Frame.Init pnc sm att ep f).2.obstacles = f.obstacles ++ t) ∧
    ((Frame.Init pnc sm att ep f).1 = true →
      (Frame.Init pnc sm att ep f).2.reference_line_info =
        (Frame.Init pnc sm att ep
          { f with reference_line_info := l }).2.reference_line_info) := by
  constructor
  · unfold Frame.Init
    cases pnc with
    | none => exact ⟨[], by simp⟩
    | some m =>
      by_cases hnan : (f.init_pose.position.x.isnan ||
          f.init_pose.position.y.isnan) = true
      · simp only [hnan]
        exact ⟨[], by simp⟩
      · rcases hcr : Frame.CreateReferenceLineFromRouting m sm
            f.init_pose.position f.routing_response [] with ⟨b, rls⟩
        cases b
        · simp only [Bool.not_eq_true] at hnan
          simp [hnan, hcr]
        · cases ep
          · simp only [Bool.not_eq_true] at hnan
            simp [hnan, hcr]
          · simp only [Bool.not_eq_true] at hnan
            simp only [hnan, hcr, Bool.false_eq_true, if_false]
            simpa [Frame.CreatePredictionObstacles] using
              foldl_add_extends (Obstacle.CreateObstacles f.prediction)
                f.obstacles
  · intro hsucc
    unfold Frame.Init at hsucc ⊢
    cases pnc with
    | none => simp at hsucc
    | some m =>
      by_cases hnan : (f.init_pose.position.x.isnan ||
          f.init_pose.position.y.isnan) = true
      · simp [hnan] at hsucc
      · rcases hcr : Frame.CreateReferenceLineFromRouting m sm
            f.init_pose.position f.routing_response [] with ⟨b, rls⟩
        cases b
        · simp only [Bool.not_eq_true] at hnan
          simp [hnan, hcr] at hsucc
        · simp only [Bool.not_eq_true] at hnan
          simp [hnan, hcr]

theorem init_rebuilds_candidates_but_not_registry_witness :
    (∃ t, (Frame.Init (some m0) sm0 attachOk true frameC8).2.obstacles =
      frameC8.obstacles ++ t) ∧
    (Frame.Init (some m0) sm0 attachOk true frameC8).2.reference_line_info =
      (Frame.Init (some m0) sm0 attachOk true
        { frameC8 with reference_line_info :=
            [(default : ReferenceLineInfo)] }).2.reference_line_info :=
  ⟨(init_rebuilds_candidates_but_not_registry (some m0) sm0 attachOk true
      frameC8 [(default : ReferenceLineInfo)]).1,
   (init_rebuilds_candidates_but_not_registry (some m0) sm0 attachOk true
      frameC8 [(default : ReferenceLineInfo)]).2 rfl⟩

/-- C9 counterexample: with a map that returns a path and a smoother that
fails, `CreateReferenceLineFromRouting` fails yet the output vector has gained
one (default-constructed) entry, refuting that a failing call leaves the
output vector unchanged. -/
theorem createReferenceLine_failure_changes_output :
    (Frame.CreateReferenceLineFromRouting m0 smFail ⟨.val 0, .val 0⟩ ⟨[]⟩
      []).1 = false ∧
    (Frame.CreateReferenceLineFromRouting m0 smFail ⟨.val 0, .val 0⟩ ⟨[]⟩
      []).2 ≠ [] :=
  ⟨rfl, by simp [Frame.CreateReferenceLineFromRouting, m0, smFail]⟩

/-- C9 amended: on success `CreateReferenceLineFromRouting` appends exactly
one reference line to the output vector; on failure the vector is either
unchanged (map-path failure) or has gained exactly one default-constructed
entry (smoothing failure). -/
theorem createReferenceLine_output_growth (m : PncMap)
    (sm : ReferenceLineSmoother) (pos : PointENU) (routing : RoutingResponse)
    (rls : List ReferenceLine) :
    ((Frame.CreateReferenceLineFromRouting m sm pos routing rls).1 = true →
      ∃ r, (Frame.CreateReferenceLineFromRouting m sm pos routing rls).2 =
        rls ++ [r]) ∧
    ((Frame.CreateReferenceLineFromRouting m sm pos routing rls).1 = false →
      (Frame.CreateReferenceLineFromRouting m sm pos routing rls).2 = rls ∨
      (Frame.CreateReferenceLineFromRouting m sm pos routing rls).2 =
        rls ++ [(default : ReferenceLine)]) := by
  cases hm : m.CreatePathFromRouting routing pos with
  | none =>
    have heq : Frame.CreateReferenceLineFromRouting m sm pos routing rls =
        (false, rls) := by
      unfold Frame.CreateReferenceLineFromRouting
      simp [hm]
    rw [heq]
    exact ⟨fun h => by simp at h, fun _ => Or.inl rfl⟩
  | some p =>
    cases hs : sm.smooth (ReferenceLine.ofPath p) with
    | none =>
      have heq : Frame.CreateReferenceLineFromRouting m sm pos routing rls =
          (false, rls ++ [(default : ReferenceLine)]) := by
        unfold Frame.CreateReferenceLineFromRouting
        simp [hm, hs]
      rw [heq]
      exact ⟨fun h => by simp at h, fun _ => Or.inr rfl⟩
    | some r =>
      have heq : Frame.CreateReferenceLineFromRouting m sm pos routing rls =
          (true, rls ++ [r]) := by
        unfold Frame.CreateReferenceLineFromRouting
        simp [hm, hs]
      rw [heq]
      exact ⟨fun _ => ⟨r, rfl⟩, fun h => by simp at h⟩

theorem createReferenceLine_output_growth_witness :
    (∃ r, (Frame.CreateReferenceLineFromRouting m0 sm0 ⟨.val 0, .val 0⟩ ⟨[]⟩
      []).2 = [] ++ [r]) ∧
    ((Frame.CreateReferenceLineFromRouting m0 smFail ⟨.val 0, .val 0⟩ ⟨[]⟩
      []).2 = [] ∨
     (Frame.CreateReferenceLineFromRouting m0 smFail ⟨.val 0, .val 0⟩ ⟨[]⟩
      []).2 = [] ++ [(default : ReferenceLine)]) :=
  ⟨(createReferenceLine_output_growth m0 sm0 ⟨.val 0, .val 0⟩ ⟨[]⟩ []).1 rfl,
   (createReferenceLine_output_growth m0 smFail ⟨.val 0, .val 0⟩ ⟨[]⟩ []).2 rfl⟩

end Apollo
